import Mathlib

/-!
Verification of the 3D-generation orchestrator of `mcp-game-asset-gen`.

Shallow embedding of `src/providers/model3dHelpers.ts` and
`src/utils/model3dUtils.ts`: option validation, variant selection,
default merging, reference-image generation, the Meshy polling loop and
the asynchronous job runner (status-file trace).
-/

/-- `Model3DModel` enum from `src/utils/model3dUtils.ts`. -/
inductive Model3DModel
  | trellis
  | hunyuan3d
  | hunyuanWorld
  | seed3d
  | meshy
deriving DecidableEq, Repr

/-- `Model3DVariant` enum from `src/utils/model3dUtils.ts`. -/
inductive Model3DVariant
  | single
  | multi
  | singleTurbo
  | multiTurbo
deriving DecidableEq, Repr

/-- `Model3DFormat` enum from `src/utils/model3dUtils.ts`. -/
inductive Model3DFormat
  | glb
  | gltf
deriving DecidableEq, Repr

/-- Reference-image backend tag (`'openai' | 'gemini' | 'falai'`). -/
inductive RefModel
  | openai
  | gemini
  | falai
deriving DecidableEq, Repr

/-- Reference view tag (`'front' | 'back' | 'top' | 'left' | 'right'`). -/
inductive ViewTag
  | front
  | back
  | top
  | left
  | right
deriving DecidableEq, Repr

/-- The string value of each model, as in the TypeScript enum. -/
def modelStr : Model3DModel → String
  | .trellis => "trellis"
  | .hunyuan3d => "hunyuan3d"
  | .hunyuanWorld => "hunyuan-world"
  | .seed3d => "seed3d"
  | .meshy => "meshy"

/-- The string value of each variant, as in the TypeScript enum. -/
def variantStr : Model3DVariant → String
  | .single => "single"
  | .multi => "multi"
  | .singleTurbo => "single-turbo"
  | .multiTurbo => "multi-turbo"

/-- The display name each validation message uses for a model. -/
def modelDisplayName : Model3DModel → String
  | .trellis => "Trellis"
  | .hunyuan3d => "Hunyuan3D"
  | .hunyuanWorld => "Hunyuan World"
  | .seed3d => "Seed3D"
  | .meshy => "Meshy"

/-- Whether `pat` occurs at the start of the character list. -/
def charsHasPre : List Char → List Char → Bool
  | [], _ => true
  | _ :: _, [] => false
  | p :: ps, c :: cs => p == c && charsHasPre ps cs

/-- Whether `pat` occurs anywhere in the character list. -/
def charsHasInfix (pat : List Char) : List Char → Bool
  | [] => charsHasPre pat []
  | c :: cs => charsHasPre pat (c :: cs) || charsHasInfix pat cs

/-- JavaScript `String.prototype.includes`. -/
def strIncludes (s pat : String) : Bool := charsHasInfix pat.toList s.toList

/-- `variant.includes('turbo')` on a variant's string value. -/
def variantIncludesTurbo (v : Model3DVariant) : Bool :=
  strIncludes (variantStr v) "turbo"

/-- `variant.includes('multi')` on a variant's string value. -/
def variantIncludesMulti (v : Model3DVariant) : Bool :=
  strIncludes (variantStr v) "multi"

/-- `options.variant?.includes('turbo')` (`undefined` is falsy). -/
def optVariantIncludesTurbo : Option Model3DVariant → Bool
  | none => false
  | some v => variantIncludesTurbo v

/-- `variant && variant.includes('multi')` (`undefined` is falsy). -/
def optVariantIncludesMulti : Option Model3DVariant → Bool
  | none => false
  | some v => variantIncludesMulti v

/-- `AVAILABLE_VARIANTS` table from `src/utils/model3dUtils.ts`. -/
def AVAILABLE_VARIANTS : Model3DModel → List Model3DVariant
  | .trellis => [.single, .multi]
  | .hunyuan3d => [.single, .multi, .singleTurbo, .multiTurbo]
  | .hunyuanWorld => [.single]
  | .seed3d => [.single]
  | .meshy => [.single, .multi]

/-- `DEFAULT_VARIANTS` table from `src/utils/model3dUtils.ts`. -/
def DEFAULT_VARIANTS : Model3DModel → Model3DVariant := fun _ => .single

/-- `Model3DGenerationOptionsExtended` from `src/providers/model3dHelpers.ts`.
Optional TypeScript fields are `Option`s; an absent field is `none`. -/
structure Model3DGenerationOptionsExtended where
  prompt : Option String := none
  inputImagePaths : Option (List String) := none
  outputPath : String
  model : Model3DModel
  variant : Option Model3DVariant := none
  format : Option Model3DFormat := none
  autoGenerateReferences : Option Bool := none
  referenceModel : Option RefModel := none
  referenceViews : Option (List ViewTag) := none
  cleanupReferences : Option Bool := none
deriving DecidableEq, Repr

/-- `!options.prompt`: an absent or empty prompt is falsy. -/
def promptTruthy : Option String → Bool
  | none => false
  | some s => !s.isEmpty

/-- `selectModelVariant` from `src/providers/model3dHelpers.ts`. -/
def selectModelVariant (model : Model3DModel) (inputImageCount : Nat)
    (preferTurbo : Bool := false) : Model3DVariant :=
  if model = .trellis ∨ model = .meshy then
    if inputImageCount ≤ 1 then .single else .multi
  else if model = .hunyuanWorld ∨ model = .seed3d then
    .single
  else
    if preferTurbo then
      if inputImageCount ≤ 1 then .singleTurbo else .multiTurbo
    else
      if inputImageCount ≤ 1 then .single else .multi

/-- JavaScript whitespace as far as `String.prototype.trim` strips it
(the characters that can occur in a path argument). -/
def isJsWhitespace (c : Char) : Bool :=
  c == ' ' || c == '\t' || c == '\n' || c == '\r'

/-- `outputPath.trim().length === 0`: every character is whitespace
(in particular true for the empty string, which is also falsy). -/
def trimEmpty (s : String) : Bool := s.toList.all isJsWhitespace

/-- The guard `options.variant && !['single', 'multi', 'single-turbo',
'multi-turbo'].includes(options.variant)`. -/
def variantUnrecognized : Option Model3DVariant → Bool
  | some v => !([Model3DVariant.single, .multi, .singleTurbo,
      .multiTurbo].contains v)
  | none => false

/-- The guard `options.format && !['glb', 'gltf'].includes(options.format)`. -/
def formatUnrecognized : Option Model3DFormat → Bool
  | some f => !([Model3DFormat.glb, .gltf].contains f)
  | none => false

/-- `validate3DModelOptions` from `src/providers/model3dHelpers.ts`.
Thrown `Error`s become `.error` carrying the message. The output-path
guard `!outputPath || outputPath.trim().length === 0` collapses to the
trim test because the empty string both is falsy and trims to length 0. -/
def validate3DModelOptions (o : Model3DGenerationOptionsExtended) :
    Except String Unit :=
  if trimEmpty o.outputPath then
    .error "Output path is required and cannot be empty"
  else if !([Model3DModel.trellis, .hunyuan3d, .hunyuanWorld, .seed3d,
      .meshy].contains o.model) then
    .error "Model must be one of: trellis, hunyuan3d, hunyuan-world, seed3d, meshy"
  else if variantUnrecognized o.variant then
    .error "Variant must be one of: single, multi, single-turbo, multi-turbo"
  else if formatUnrecognized o.format then
    .error "Format must be one of: glb, gltf"
  else if o.model = .trellis && optVariantIncludesTurbo o.variant then
    .error "Trellis model does not support turbo variants"
  else if o.model = .hunyuanWorld && o.variant.isSome
      && !(o.variant == some .single) then
    .error "Hunyuan World model only supports single variant"
  else if o.model = .seed3d && o.variant.isSome
      && !(o.variant == some .single) then
    .error "Seed3D model only supports single variant"
  else if o.model = .meshy && optVariantIncludesTurbo o.variant then
    .error "Meshy model does not support turbo variants"
  else if (o.inputImagePaths.getD []).isEmpty && !promptTruthy o.prompt then
    .error "Either input images or a prompt is required for 3D model generation"
  else
    .ok ()

/-- The fields populated by `getDefault3DOptions` (a `Partial<…>` in the
source; it never sets `prompt`, `inputImagePaths` or `outputPath`). -/
structure Default3DOptions where
  format : Model3DFormat
  autoGenerateReferences : Bool
  referenceModel : RefModel
  referenceViews : List ViewTag
  cleanupReferences : Bool
  model : Model3DModel
  variant : Model3DVariant
deriving DecidableEq, Repr

/-- `getDefault3DOptions` from `src/providers/model3dHelpers.ts`. -/
def getDefault3DOptions (model : Model3DModel) : Default3DOptions :=
  { format := .glb
    autoGenerateReferences := true
    referenceModel := .gemini
    referenceViews := [.front, .back, .top]
    cleanupReferences := true
    model := model
    variant :=
      match model with
      | .trellis => .multi
      | .hunyuan3d => .multi
      | .hunyuanWorld => .single
      | .seed3d => .single
      | .meshy => .single }

/-- `merge3DWithDefaults`: the spread `{...defaults, ...options}` — a
field present in `options` wins, otherwise the default applies; the
defaults never provide `prompt`, `inputImagePaths` or `outputPath`. -/
def merge3DWithDefaults (o : Model3DGenerationOptionsExtended) :
    Model3DGenerationOptionsExtended :=
  let d := getDefault3DOptions o.model
  { prompt := o.prompt
    inputImagePaths := o.inputImagePaths
    outputPath := o.outputPath
    model := o.model
    variant := some (o.variant.getD d.variant)
    format := some (o.format.getD d.format)
    autoGenerateReferences := some (o.autoGenerateReferences.getD d.autoGenerateReferences)
    referenceModel := some (o.referenceModel.getD d.referenceModel)
    referenceViews := some (o.referenceViews.getD d.referenceViews)
    cleanupReferences := some (o.cleanupReferences.getD d.cleanupReferences) }

/-! ## Reference image generation (`generateReferenceImages`) -/

/-- The reference-image backend (`generateImage` plus the JSON parse of
its result): given the view, the loop index and — for every call after
the first — the list of conditioning image paths, it either returns the
saved paths (`parsedResult.savedPaths`, possibly empty) or throws. -/
def RefBackend : Type :=
  ViewTag → Nat → Option (List String) → Except String (List String)

/-- One backend call made by `generateReferenceImages`, as observed:
the view, the conditioning images passed (`none` for the text-only first
call), the paths it contributed, and whether the call succeeded. -/
structure RefCall where
  view : ViewTag
  conditioning : Option (List String)
  produced : List String
  ok : Bool
deriving DecidableEq, Repr

/-- The view reordering of `generateReferenceImages`: the comparator
moves every `front` before everything else and leaves the rest in their
relative order, which is exactly a stable partition on `front`. -/
def sortViewsFrontFirst (views : List ViewTag) : List ViewTag :=
  views.filter (fun v => v == .front) ++ views.filter (fun v => !(v == .front))

/-- The `for` loop of `generateReferenceImages`: `i` is the loop index,
`acc` the `referencePaths` accumulated so far. A failed call is caught,
logged and skipped; a successful call appends its saved paths. Returns
the final `referencePaths` and the trace of backend calls. -/
def refImagesLoop (backend : RefBackend) :
    Nat → List String → List ViewTag → List String × List RefCall
  | _, acc, [] => (acc, [])
  | i, acc, v :: rest =>
    let cond : Option (List String) := if i = 0 then none else some acc
    match backend v i cond with
    | .ok paths =>
      let r := refImagesLoop backend (i + 1) (acc ++ paths) rest
      (r.1, ⟨v, cond, paths, true⟩ :: r.2)
    | .error _ =>
      let r := refImagesLoop backend (i + 1) acc rest
      (r.1, ⟨v, cond, [], false⟩ :: r.2)

/-- `generateReferenceImages` from `src/providers/model3dHelpers.ts`,
instrumented with the trace of backend calls it makes. -/
def generateReferenceImages (backend : RefBackend) (views : List ViewTag) :
    List String × List RefCall :=
  refImagesLoop backend 0 [] (sortViewsFrontFirst views)

/-! ## Meshy create-task-then-poll loop (`pollMeshyTaskStatus`) -/

/-- The parts of a Meshy polling response the loop inspects: the
`error` field (its message, when present), the `status` string, and
`task_error.message` when present. -/
structure MeshyResponse where
  error : Option String := none
  status : String
  taskErrorMessage : Option String := none
deriving DecidableEq, Repr

/-- What one iteration of `pollMeshyTaskStatus` decides on a response:
`some r` terminates the loop with result `r`, `none` keeps polling. -/
def meshyStepOutcome (r : MeshyResponse) :
    Option (Except String MeshyResponse) :=
  match r.error with
  | some e => some (.error ("Meshy API error: " ++ e))
  | none =>
    if r.status = "SUCCEEDED" then some (.ok r)
    else if r.status = "FAILED" ∨ r.status = "EXPIRED" then
      some (.error ("Meshy task " ++ r.status ++ ": "
        ++ r.taskErrorMessage.getD "Unknown error"))
    else none

/-- `maxAttempts` default of `pollMeshyTaskStatus` (120 attempts). -/
def meshyMaxAttempts : Nat := 120

/-- `pollInterval` default of `pollMeshyTaskStatus` (5000 ms). -/
def meshyPollIntervalMs : Nat := 5000

/-- The bounded `for` loop of `pollMeshyTaskStatus`: `responses k` is
the response of the `k`-th HTTP poll, `fuel` the remaining attempts.
Returns the loop outcome and the number of polls performed. -/
def pollMeshyLoop (responses : Nat → MeshyResponse) :
    Nat → Nat → Except String MeshyResponse × Nat
  | _, 0 => (.error "Meshy task timed out after maximum polling attempts", 0)
  | attempt, fuel + 1 =>
    match meshyStepOutcome (responses attempt) with
    | some res => (res, 1)
    | none =>
      let r := pollMeshyLoop responses (attempt + 1) fuel
      (r.1, r.2 + 1)

/-- `pollMeshyTaskStatus` from `src/utils/model3dUtils.ts`, with its
default `maxAttempts = 120`; also reports how many polls were made. -/
def pollMeshyTaskStatus (responses : Nat → MeshyResponse) :
    Except String MeshyResponse × Nat :=
  pollMeshyLoop responses 0 meshyMaxAttempts

/-! ## Status store and the async job orchestrator -/

/-- The `status` enum of a `Model3DGenerationStatus` record. -/
inductive JobStatus
  | pending
  | processing
  | completed
  | failed
deriving DecidableEq, Repr

/-- `Model3DGenerationResult` fields the orchestrator touches. -/
structure Model3DGenerationResult where
  provider : String := ""
  savedPaths : List String := []
  autoGeneratedReferences : Option (List String) := none
  referenceModelUsed : Option RefModel := none
  referenceViewsGenerated : Option (List ViewTag) := none
deriving DecidableEq, Repr

/-- `Model3DGenerationStatus` from `src/providers/model3dHelpers.ts`:
the on-disk status record. -/
structure Model3DGenerationStatus where
  id : String
  status : JobStatus
  progress : Nat
  message : String
  startTime : String
  endTime : Option String := none
  result : Option Model3DGenerationResult := none
  error : Option String := none
  logs : List String := []
deriving DecidableEq, Repr

/-- A `Partial<Model3DGenerationStatus>` as passed to
`updateStatusFile`; only the fields the orchestrator ever patches. -/
structure StatusPatch where
  status : Option JobStatus := none
  progress : Option Nat := none
  message : Option String := none
  endTime : Option String := none
  result : Option Model3DGenerationResult := none
  error : Option String := none
deriving Repr

/-- `Object.assign(currentStatus, status)` of `updateStatusFile`:
fields present in the patch overwrite, the rest keep their value. -/
def applyPatch (s : Model3DGenerationStatus) (p : StatusPatch) :
    Model3DGenerationStatus :=
  { s with
    status := p.status.getD s.status
    progress := p.progress.getD s.progress
    message := p.message.getD s.message
    endTime := p.endTime.orElse (fun _ => s.endTime)
    result := p.result.orElse (fun _ => s.result)
    error := p.error.orElse (fun _ => s.error) }

/-- The fresh record `updateStatusFile` creates when the status file
does not exist yet (the job's first write). -/
def initialStatus (id nowS : String) : Model3DGenerationStatus :=
  { id := id
    status := .pending
    progress := 0
    message := "Initializing..."
    startTime := nowS
    logs := [] }

/-- The external effects of one async job: the reference backend, the
3D backend dispatch (model, variant and image paths passed to the
provider call, `.error` when it throws), whether `unlinkSync` of a
path succeeds, and the clock (one constant timestamp string). -/
structure AsyncEnv where
  refBackend : RefBackend
  dispatch : Model3DModel → Model3DVariant → List String →
    Except String Model3DGenerationResult
  unlinkOk : String → Bool
  nowStr : String

/-- `addLogToStatus`: appends a timestamped line to `logs` (the file
exists at every point the orchestrator logs, so no fresh record). -/
def addLog (env : AsyncEnv) (s : Model3DGenerationStatus) (m : String) :
    Model3DGenerationStatus :=
  { s with logs := s.logs ++ ["[" ++ env.nowStr ++ "] " ++ m] }

/-- `${variant}` string interpolation of an optional variant. -/
def optVariantStr : Option Model3DVariant → String
  | none => "undefined"
  | some v => variantStr v

/-- The 50%-progress message written before dispatch for every model
except Trellis. -/
def processing50Msg : Model3DModel → String
  | .trellis => ""
  | .hunyuan3d => "Processing with Hunyuan3D..."
  | .hunyuanWorld => "Processing with Hunyuan World..."
  | .seed3d => "Processing with ByteDance Seed3D..."
  | .meshy => "Processing with Meshy..."

/-- The optional reference-generation block of `generate3DModelAsync`
(progress 20): runs when no input images were supplied, the prompt is
truthy and `autoGenerateReferences` holds. Returns its status writes,
the resulting record, the `generatedReferences` and the effective
input paths. -/
def refPhase (env : AsyncEnv) (o : Model3DGenerationOptionsExtended)
    (s3 : Model3DGenerationStatus) :
    List Model3DGenerationStatus × Model3DGenerationStatus ×
      List String × List String :=
  let inputImagePaths := o.inputImagePaths.getD []
  if inputImagePaths.isEmpty && promptTruthy o.prompt
      && (o.autoGenerateReferences.getD true) then
    let s4 := addLog env s3
      "No input images provided, generating reference images automatically..."
    let s5 := applyPatch s4
      { progress := some 20, message := some "Generating reference images..." }
    let views := if optVariantIncludesMulti o.variant then
        o.referenceViews.getD [.front, .back, .top]
      else [.front]
    let refs := (generateReferenceImages env.refBackend views).1
    let s6 := addLog env s5
      ("Generated " ++ toString refs.length ++ " reference images")
    ([s4, s5, s6], s6, refs, refs)
  else
    ([], s3, [], inputImagePaths)

/-- The model-specific dispatch of `generate3DModelAsync` (progress 40
onwards): every model except Trellis first writes a 50%-progress
update; Meshy's multi call truncates to at most 4 images. Returns the
status writes, the resulting record and the backend outcome. -/
def dispatchPhase (env : AsyncEnv) (model : Model3DModel)
    (actualVariant : Model3DVariant) (paths : List String)
    (s9 : Model3DGenerationStatus) :
    List Model3DGenerationStatus × Model3DGenerationStatus ×
      Except String Model3DGenerationResult :=
  let args := if model = .meshy && !(actualVariant == .single) then
      paths.take 4
    else paths
  match model with
  | .trellis => ([], s9, env.dispatch .trellis actualVariant args)
  | m =>
    let s10 := applyPatch s9
      { progress := some 50, message := some (processing50Msg m) }
    ([s10], s10, env.dispatch m actualVariant args)

/-- The `finally` loop body over `generatedReferences`: `unlinkSync`
each path; failures are caught and only logged. Returns the log
writes, the final record and the list of paths whose deletion was
attempted. -/
def cleanupUnlinkWrites (env : AsyncEnv) (s : Model3DGenerationStatus) :
    List String → List Model3DGenerationStatus × Model3DGenerationStatus ×
      List String
  | [] => ([], s, [])
  | r :: rs =>
    let msg := if env.unlinkOk r then "Cleaned up: " ++ r
      else "Failed t" ++ "o cleanup " ++ r ++ ": Error"
    let s1 := addLog env s msg
    let t := cleanupUnlinkWrites env s1 rs
    (s1 :: t.1, t.2.1, r :: t.2.2)

/-- The `finally` block of `generate3DModelAsync`: when
`cleanupReferences` holds and references were generated, log and
delete each one. -/
def cleanupPhase (env : AsyncEnv) (o : Model3DGenerationOptionsExtended)
    (s : Model3DGenerationStatus) (refs : List String) :
    List Model3DGenerationStatus × Model3DGenerationStatus × List String :=
  if (o.cleanupReferences.getD true) && !refs.isEmpty then
    let s1 := addLog env s "Cleaning up reference images..."
    let t := cleanupUnlinkWrites env s1 refs
    (s1 :: t.1, t.2.1, t.2.2)
  else
    ([], s, [])

/-- One complete run of a `generate3DModelAsync` job. -/
structure JobRun where
  /-- Every status-file state, in write order. -/
  trace : List Model3DGenerationStatus
  /-- The record as it stands when the `finally` block begins. -/
  preCleanup : Model3DGenerationStatus
  /-- The final status-file state. -/
  final : Model3DGenerationStatus
  /-- `generatedReferences` at the end of the run. -/
  refs : List String
  /-- The reference paths whose deletion was attempted. -/
  unlinks : List String
deriving Repr

/-- The `catch` block of `generate3DModelAsync`: records the failure
and logs it. -/
def failWrites (env : AsyncEnv) (s : Model3DGenerationStatus) (e : String) :
    Model3DGenerationStatus × Model3DGenerationStatus :=
  let sF := applyPatch s
    { status := some .failed, progress := some 0,
      message := some ("Generation failed: " ++ e),
      endTime := some env.nowStr, error := some e }
  (sF, addLog env sF ("ERROR: " ++ e))

/-- The failure exit of the background task: the `catch` writes
followed by the `finally` cleanup, appended to the writes made so
far. -/
def finishFailure (env : AsyncEnv) (o : Model3DGenerationOptionsExtended)
    (pre : List Model3DGenerationStatus) (sD : Model3DGenerationStatus)
    (e : String) (refs : List String) : JobRun :=
  let f := failWrites env sD e
  let c := cleanupPhase env o f.2 refs
  { trace := pre ++ f.1 :: f.2 :: c.1
    preCleanup := f.2, final := c.2.1, refs := refs, unlinks := c.2.2 }

/-- The success exit of the background task: the 90%-progress write,
the `completed` write storing the result, the success log, then the
`finally` cleanup. -/
def finishSuccess (env : AsyncEnv) (o : Model3DGenerationOptionsExtended)
    (pre : List Model3DGenerationStatus) (sD : Model3DGenerationStatus)
    (result1 : Model3DGenerationResult) (refs : List String) : JobRun :=
  let s10 := applyPatch sD
    { progress := some 90, message := some "Finalizing result..." }
  let s11 := applyPatch s10
    { status := some .completed, progress := some 100,
      message := some "3D model generation completed successfully!",
      endTime := some env.nowStr, result := some result1 }
  let s12 := addLog env s11 "3D model generation completed successfully"
  let c := cleanupPhase env o s12 refs
  { trace := pre ++ s10 :: s11 :: s12 :: c.1
    preCleanup := s12, final := c.2.1, refs := refs, unlinks := c.2.2 }

/-- The tail of the background task after dispatch: route the backend
outcome to the failure or success exit; on success, attach the
auto-generation metadata to the result when references were made. -/
def runAsyncJobFinish (env : AsyncEnv)
    (o : Model3DGenerationOptionsExtended)
    (pre : List Model3DGenerationStatus) (sD : Model3DGenerationStatus)
    (refs : List String)
    (dres : Except String Model3DGenerationResult) : JobRun :=
  match dres with
  | .error e => finishFailure env o pre sD e refs
  | .ok result =>
    let result1 := if refs.isEmpty then result else
      { result with
        autoGeneratedReferences := some refs
        referenceModelUsed := some (o.referenceModel.getD .gemini)
        referenceViewsGenerated :=
          some (o.referenceViews.getD [.front, .back, .top]) }
    finishSuccess env o pre sD result1 refs

/-- `generate3DModelAsync` from `src/providers/model3dHelpers.ts`: the
full sequence of status-file writes of one job, for a fresh status
path whose basename is `statusId`. The initial `pending` write happens
in the caller's context; everything else inside the background task. -/
def runAsyncJob (env : AsyncEnv) (o : Model3DGenerationOptionsExtended)
    (statusId : String) : JobRun :=
  let s0 := applyPatch (initialStatus statusId env.nowStr)
    { status := some .pending, progress := some 0,
      message := some "Initializing 3D model generation..." }
  let s1 := applyPatch s0
    { status := some .processing, progress := some 5,
      message := some "Validating options and preparing inputs..." }
  let s2 := addLog env s1
    ("Starting 3D generation with model: " ++ modelStr o.model
      ++ ", variant: " ++ optVariantStr o.variant)
  match validate3DModelOptions o with
  | .error e => finishFailure env o [s0, s1, s2] s2 e []
  | .ok _ =>
    let s3 := applyPatch s2
      { progress := some 10, message := some "Checking input images..." }
    let rp := refPhase env o s3
    let sR := rp.2.1
    let refs := rp.2.2.1
    let finalInputPaths := rp.2.2.2
    let s7 := applyPatch sR
      { progress := some 30, message := some "Preparing 3D generation request..." }
    let actualVariant :=
      o.variant.getD (selectModelVariant o.model finalInputPaths.length)
    let s8 := addLog env s7
      ("Using variant: " ++ variantStr actualVariant ++ " with "
        ++ toString finalInputPaths.length ++ " input images")
    let s9 := applyPatch s8
      { progress := some 40,
        message := some ("Calling " ++ modelStr o.model ++ " "
          ++ variantStr actualVariant ++ " API...") }
    let dp := dispatchPhase env o.model actualVariant finalInputPaths s9
    runAsyncJobFinish env o (s0 :: s1 :: s2 :: s3 ::
      (rp.1 ++ s7 :: s8 :: s9 :: dp.1)) dp.2.1 refs dp.2.2

/-! ## Relations and concrete instances used by the statements -/

/-- Two status records agree on everything except `logs`. -/
def sameCore (a b : Model3DGenerationStatus) : Prop :=
  a.status = b.status ∧ a.progress = b.progress ∧ a.message = b.message ∧
  a.error = b.error ∧ a.endTime = b.endTime ∧ a.result = b.result

/-- One status write never lowers `progress`, except the failure write,
which resets it to 0. -/
def progressStep (a b : Model3DGenerationStatus) : Prop :=
  a.progress ≤ b.progress ∨ (b.status = .failed ∧ b.progress = 0)

/-- One status write never leaves a terminal `status`. -/
def noRegress (a b : Model3DGenerationStatus) : Prop :=
  (a.status = .completed → b.status = .completed) ∧
  (a.status = .failed → b.status = .failed)

/-- An environment whose backends are unreachable (every provider call
throws) and whose deletions succeed. -/
def env0 : AsyncEnv :=
  { refBackend := fun _ _ _ => .error "provider unavailable"
    dispatch := fun _ _ _ => .error "provider unavailable"
    unlinkOk := fun _ => true
    nowStr := "2026-01-01T00:00:00.000Z" }

/-- A request missing both the prompt and the input images. -/
def opts0 : Model3DGenerationOptionsExtended :=
  { outputPath := "/tmp/asset.glb", model := .trellis }

/-- A valid request with one supplied input image. -/
def optsB : Model3DGenerationOptionsExtended :=
  { prompt := some "a red cube", inputImagePaths := some ["img.png"],
    outputPath := "/tmp/cube.glb", model := .trellis }

/-- An environment whose backends succeed: each reference call saves
one image and dispatch returns an artifact at the requested path. -/
def envOk : AsyncEnv :=
  { refBackend := fun v _ _ => .ok ["ref_" ++ (toString (repr v)) ++ ".png"]
    dispatch := fun _ _ _ => .ok { provider := "FAL.ai", savedPaths := ["/tmp/cube.glb"] }
    unlinkOk := fun _ => true
    nowStr := "2026-01-01T00:00:00.000Z" }

/-- A prompt-only request (references will be auto-generated). -/
def optsP : Model3DGenerationOptionsExtended :=
  { prompt := some "a red cube", outputPath := "/tmp/cube.glb",
    model := .trellis }

/-- The reference backend of the spec's partial-failure scenario: the
second call (index 1) throws, the others save one image each. -/
def refBackendScenario : RefBackend := fun _ i _ =>
  if i = 1 then .error "backend call failed"
  else .ok [if i = 0 then "ref1" else "ref3"]

/-- A reference backend that saves one image per view, named by the
loop index. -/
def refBackendOk : RefBackend := fun _ i _ => .ok ["p" ++ toString i]

/-- A valid request with an explicitly supplied `single` variant. -/
def optsV : Model3DGenerationOptionsExtended :=
  { prompt := some "a red cube", inputImagePaths := some ["img.png"],
    outputPath := "/tmp/cube.glb", model := .trellis,
    variant := some .single }

/-! ## Theorems -/

theorem variantUnrecognized_false (v : Option Model3DVariant) :
    variantUnrecognized v = false := by
  cases v with
  | none => rfl
  | some w => cases w <;> rfl

theorem formatUnrecognized_false (f : Option Model3DFormat) :
    formatUnrecognized f = false := by
  cases f with
  | none => rfl
  | some g => cases g <;> rfl

theorem model_recognized (m : Model3DModel) :
    ([Model3DModel.trellis, .hunyuan3d, .hunyuanWorld, .seed3d,
      .meshy].contains m) = true := by
  cases m <;> rfl

/-- C5: for every backend model, every input-image count and every
value of the prefer-fast flag, `selectModelVariant` returns a variant
in that model's permitted-variant set `AVAILABLE_VARIANTS`. -/
theorem selectModelVariant_mem_available (m : Model3DModel) (n : Nat)
    (t : Bool) : selectModelVariant m n t ∈ AVAILABLE_VARIANTS m := by
  cases m <;> cases t <;>
    simp [selectModelVariant, AVAILABLE_VARIANTS] <;>
    omega

/-- C9: merging a request with its own model's defaults is idempotent,
and when the user supplied every defaultable field the merge returns
the option set unchanged (user values win per field). -/
theorem merge3DWithDefaults_idem (o : Model3DGenerationOptionsExtended) :
    merge3DWithDefaults (merge3DWithDefaults o) = merge3DWithDefaults o ∧
    (o.variant.isSome = true → o.format.isSome = true →
     o.autoGenerateReferences.isSome = true →
     o.referenceModel.isSome = true → o.referenceViews.isSome = true →
     o.cleanupReferences.isSome = true →
     merge3DWithDefaults o = o) := by
  constructor
  · simp [merge3DWithDefaults]
  · intro h1 h2 h3 h4 h5 h6
    rcases o with ⟨p, ii, out, m, var, fmt, agr, rm, rv, cr⟩
    simp only at h1 h2 h3 h4 h5 h6
    obtain ⟨v1, rfl⟩ := Option.isSome_iff_exists.1 h1
    obtain ⟨v2, rfl⟩ := Option.isSome_iff_exists.1 h2
    obtain ⟨v3, rfl⟩ := Option.isSome_iff_exists.1 h3
    obtain ⟨v4, rfl⟩ := Option.isSome_iff_exists.1 h4
    obtain ⟨v5, rfl⟩ := Option.isSome_iff_exists.1 h5
    obtain ⟨v6, rfl⟩ := Option.isSome_iff_exists.1 h6
    simp [merge3DWithDefaults]

/-- C8: for every recognized model with an explicitly supplied
recognized variant (and otherwise-valid options), strict validation
accepts exactly when the variant is in the model's permitted-variant
set, and rejects with an error message naming the model otherwise. -/
theorem validate_variant_compat (o : Model3DGenerationOptionsExtended)
    (v : Model3DVariant) (hv : o.variant = some v)
    (hout : trimEmpty o.outputPath = false)
    (hpi : (promptTruthy o.prompt
      || !(o.inputImagePaths.getD []).isEmpty) = true) :
    (validate3DModelOptions o = .ok () ↔ v ∈ AVAILABLE_VARIANTS o.model) ∧
    (v ∉ AVAILABLE_VARIANTS o.model →
      ∃ msg, validate3DModelOptions o = .error msg ∧
        strIncludes msg (modelDisplayName o.model) = true) := by
  rcases o with ⟨p, ii, out, m, var, fmt, agr, rm, rv, cr⟩
  simp only at hv hout hpi
  subst hv
  have hlast : ((ii.getD []).isEmpty && !promptTruthy p) = false := by
    rcases h1 : promptTruthy p with _ | _ <;>
      rcases h2 : (ii.getD []).isEmpty with _ | _ <;>
      simp_all
  cases m <;> cases v <;>
    simp only [validate3DModelOptions, hout, hlast] <;>
    simp +decide [AVAILABLE_VARIANTS, modelDisplayName,
      variantUnrecognized_false, formatUnrecognized_false,
      optVariantIncludesTurbo, variantIncludesTurbo, variantStr]

/-- Witness for C8: the compatibility equivalence evaluated on a
concrete Trellis request with an explicit `single` variant. -/
theorem validate_variant_compat_witness :
    (validate3DModelOptions optsV = .ok () ↔
      Model3DVariant.single ∈ AVAILABLE_VARIANTS optsV.model) ∧
    (Model3DVariant.single ∉ AVAILABLE_VARIANTS optsV.model →
      ∃ msg, validate3DModelOptions optsV = .error msg ∧
        strIncludes msg (modelDisplayName optsV.model) = true) :=
  validate_variant_compat optsV .single rfl (by decide) (by decide)

/-- The invariant of the `generateReferenceImages` loop: the calls
follow the view list in order; the returned paths are the accumulator
plus everything produced; call `k` is conditioned on the accumulator
plus everything produced before it (`none` for the overall first
call); failed calls contribute nothing. -/
theorem refImagesLoop_spec (backend : RefBackend) :
    ∀ (vs : List ViewTag) (i : Nat) (acc : List String),
      ((refImagesLoop backend i acc vs).2.map RefCall.view = vs) ∧
      ((refImagesLoop backend i acc vs).1 =
        acc ++ (refImagesLoop backend i acc vs).2.flatMap RefCall.produced) ∧
      (∀ k c, (refImagesLoop backend i acc vs).2[k]? = some c →
        c.conditioning = if i + k = 0 then none
          else some (acc ++
            ((refImagesLoop backend i acc vs).2.take k).flatMap
              RefCall.produced)) ∧
      (∀ c ∈ (refImagesLoop backend i acc vs).2,
        c.ok = false → c.produced = []) := by
  intro vs
  induction vs with
  | nil =>
    intro i acc
    refine ⟨rfl, by simp [refImagesLoop], ?_, ?_⟩
    · intro k c hc; simp [refImagesLoop] at hc
    · intro c hc; simp [refImagesLoop] at hc
  | cons v rest ih =>
    intro i acc
    cases hb : backend v i (if i = 0 then none else some acc) with
    | ok paths =>
      have hstep : refImagesLoop backend i acc (v :: rest) =
          ((refImagesLoop backend (i + 1) (acc ++ paths) rest).1,
           ⟨v, if i = 0 then none else some acc, paths, true⟩ ::
             (refImagesLoop backend (i + 1) (acc ++ paths) rest).2) := by
        simp [refImagesLoop, hb]
      obtain ⟨h1, h2, h3, h4⟩ := ih (i + 1) (acc ++ paths)
      rw [hstep]
      dsimp only
      refine ⟨by simp [h1], ?_, ?_, ?_⟩
      · simp only [List.flatMap_cons]
        rw [h2, List.append_assoc]
      · intro k c hc
        cases k with
        | zero =>
          simp only [List.getElem?_cons_zero, Option.some.injEq] at hc
          subst hc
          cases i <;> simp
        | succ k =>
          simp only [List.getElem?_cons_succ] at hc
          have hk := h3 k c hc
          rw [if_neg (by omega : ¬ i + 1 + k = 0)] at hk
          rw [if_neg (by omega : ¬ i + (k + 1) = 0)]
          rw [hk, List.take_succ_cons, List.flatMap_cons]
          simp [List.append_assoc]
      · intro c hc hok
        rcases List.mem_cons.1 hc with h | h
        · subst h; simp at hok
        · exact h4 c h hok
    | error e =>
      have hstep : refImagesLoop backend i acc (v :: rest) =
          ((refImagesLoop backend (i + 1) acc rest).1,
           ⟨v, if i = 0 then none else some acc, [], false⟩ ::
             (refImagesLoop backend (i + 1) acc rest).2) := by
        simp [refImagesLoop, hb]
      obtain ⟨h1, h2, h3, h4⟩ := ih (i + 1) acc
      rw [hstep]
      dsimp only
      refine ⟨by simp [h1], ?_, ?_, ?_⟩
      · simp only [List.flatMap_cons, List.nil_append]
        exact h2
      · intro k c hc
        cases k with
        | zero =>
          simp only [List.getElem?_cons_zero, Option.some.injEq] at hc
          subst hc
          cases i <;> simp
        | succ k =>
          simp only [List.getElem?_cons_succ] at hc
          have hk := h3 k c hc
          rw [if_neg (by omega : ¬ i + 1 + k = 0)] at hk
          rw [if_neg (by omega : ¬ i + (k + 1) = 0)]
          rw [hk, List.take_succ_cons, List.flatMap_cons]
          simp
      · intro c hc hok
        rcases List.mem_cons.1 hc with h | h
        · subst h; rfl
        · exact h4 c h hok

/-- The comparator sort of `generateReferenceImages` puts `front`
first whenever `front` is among the requested views. -/
theorem sortViewsFrontFirst_head (views : List ViewTag)
    (h : ViewTag.front ∈ views) :
    ∃ rest, sortViewsFrontFirst views = ViewTag.front :: rest := by
  have hmem : ViewTag.front ∈ views.filter (fun v => v == .front) :=
    List.mem_filter.2 ⟨h, by decide⟩
  cases hf : views.filter (fun v => v == .front) with
  | nil => rw [hf] at hmem; simp at hmem
  | cons x xs =>
    have hx : x ∈ views.filter (fun v => v == .front) := by
      rw [hf]; exact List.mem_cons_self x xs
    have hbeq : (x == ViewTag.front) = true := (List.mem_filter.1 hx).2
    have hxf : x = .front := by revert hbeq; cases x <;> decide
    refine ⟨xs ++ views.filter (fun v => !(v == .front)), ?_⟩
    rw [sortViewsFrontFirst, hf, hxf, List.cons_append]

/-- C6: for every requested view list containing `front`, the first
backend call is for the `front` view regardless of input order, and
every later call is conditioned on exactly the list of all previously
produced images (the first call takes no conditioning input). -/
theorem generateReferenceImages_front_first (backend : RefBackend)
    (views : List ViewTag) (hfront : ViewTag.front ∈ views) :
    ((generateReferenceImages backend views).2.map RefCall.view).head? =
      some ViewTag.front ∧
    (∀ k c, (generateReferenceImages backend views).2[k]? = some c →
      (k = 0 → c.conditioning = none) ∧
      (0 < k → c.conditioning =
        some (((generateReferenceImages backend views).2.take k).flatMap
          RefCall.produced))) := by
  obtain ⟨hmap, _, hcond, _⟩ :=
    refImagesLoop_spec backend (sortViewsFrontFirst views) 0 []
  obtain ⟨rest, hsort⟩ := sortViewsFrontFirst_head views hfront
  constructor
  · simp only [generateReferenceImages]
    rw [hmap, hsort]
    rfl
  · intro k c hc
    simp only [generateReferenceImages] at hc ⊢
    have hit := hcond k c hc
    constructor
    · intro hk0; subst hk0; simpa using hit
    · intro hkpos
      rw [if_neg (by omega)] at hit
      simpa using hit

/-- Witness for C6 on the concrete view list `[top, front]` with a
backend that saves one image per call. -/
theorem generateReferenceImages_front_first_witness :
    ((generateReferenceImages refBackendOk
        [ViewTag.top, ViewTag.front]).2.map RefCall.view).head? =
      some ViewTag.front ∧
    (∀ k c, (generateReferenceImages refBackendOk
        [ViewTag.top, ViewTag.front]).2[k]? = some c →
      (k = 0 → c.conditioning = none) ∧
      (0 < k → c.conditioning =
        some (((generateReferenceImages refBackendOk
          [ViewTag.top, ViewTag.front]).2.take k).flatMap
          RefCall.produced))) :=
  generateReferenceImages_front_first refBackendOk
    [ViewTag.top, ViewTag.front] (by decide)

/-- C7: the reference generator returns exactly the paths produced by
the successful calls, skips failed views without a placeholder, and on
the spec's 3-view scenario with the 2nd call throwing it returns
exactly the 1st and 3rd results. -/
theorem generateReferenceImages_partial_failure (backend : RefBackend)
    (views : List ViewTag) :
    (generateReferenceImages backend views).1 =
      ((generateReferenceImages backend views).2).flatMap
        RefCall.produced ∧
    (∀ c ∈ (generateReferenceImages backend views).2,
      c.ok = false → c.produced = []) ∧
    (generateReferenceImages refBackendScenario
      [ViewTag.front, ViewTag.back, ViewTag.top]).1 = ["ref1", "ref3"] := by
  obtain ⟨_, h2, _, h4⟩ :=
    refImagesLoop_spec backend (sortViewsFrontFirst views) 0 []
  refine ⟨?_, ?_, ?_⟩
  · simpa [generateReferenceImages] using h2
  · simpa [generateReferenceImages] using h4
  · rfl

/-- The polling loop makes at most `fuel` HTTP calls. -/
theorem pollMeshyLoop_le (responses : Nat → MeshyResponse) :
    ∀ (fuel attempt : Nat),
      (pollMeshyLoop responses attempt fuel).2 ≤ fuel := by
  intro fuel
  induction fuel with
  | zero => intro attempt; simp [pollMeshyLoop]
  | succ fuel ih =>
    intro attempt
    simp only [pollMeshyLoop]
    cases meshyStepOutcome (responses attempt) with
    | some res => simp
    | none => simpa using ih (attempt + 1)

/-- If no response within the attempt budget is terminal, the loop
times out after exactly the budget. -/
theorem pollMeshyLoop_timeout (responses : Nat → MeshyResponse) :
    ∀ (fuel attempt : Nat),
      (∀ k, k < fuel → meshyStepOutcome (responses (attempt + k)) = none) →
      pollMeshyLoop responses attempt fuel =
        (.error "Meshy task timed out after maximum polling attempts", fuel) := by
  intro fuel
  induction fuel with
  | zero => intro attempt _; rfl
  | succ fuel ih =>
    intro attempt h
    have h0 : meshyStepOutcome (responses attempt) = none := by
      simpa using h 0 (by omega)
    simp only [pollMeshyLoop, h0]
    have := ih (attempt + 1) (fun k hk => by
      have := h (k + 1) (by omega)
      simpa [Nat.add_assoc, Nat.add_comm, Nat.add_left_comm] using this)
    rw [this]

/-- The loop stops at the first terminal response, with that
response's outcome, after exactly `k + 1` calls. -/
theorem pollMeshyLoop_first (responses : Nat → MeshyResponse) :
    ∀ (fuel attempt k : Nat) (out : Except String MeshyResponse),
      k < fuel →
      (∀ j, j < k → meshyStepOutcome (responses (attempt + j)) = none) →
      meshyStepOutcome (responses (attempt + k)) = some out →
      pollMeshyLoop responses attempt fuel = (out, k + 1) := by
  intro fuel
  induction fuel with
  | zero => intro attempt k out hk; omega
  | succ fuel ih =>
    intro attempt k out hk hnone hterm
    cases k with
    | zero =>
      simp only [Nat.add_zero] at hterm
      simp [pollMeshyLoop, hterm]
    | succ k =>
      have h0 : meshyStepOutcome (responses attempt) = none := by
        simpa using hnone 0 (by omega)
      simp only [pollMeshyLoop, h0]
      have := ih (attempt + 1) k out (by omega)
        (fun j hj => by
          have := hnone (j + 1) (by omega)
          simpa [Nat.add_assoc, Nat.add_comm, Nat.add_left_comm] using this)
        (by simpa [Nat.add_assoc, Nat.add_comm, Nat.add_left_comm] using hterm)
      rw [this]

/-- C10: `pollMeshyTaskStatus` performs at most the fixed maximum of
120 attempts (at a fixed 5000 ms interval) and always terminates: it
returns the response of the first poll whose status is `SUCCEEDED`,
raises an error on the first terminal `FAILED`/`EXPIRED` (or API
error) response, and raises the timeout error when the attempt budget
is exhausted without a terminal response. -/
theorem pollMeshyTaskStatus_spec (responses : Nat → MeshyResponse) :
    (pollMeshyTaskStatus responses).2 ≤ meshyMaxAttempts ∧
    meshyMaxAttempts = 120 ∧ meshyPollIntervalMs = 5000 ∧
    ((∀ k, k < meshyMaxAttempts → meshyStepOutcome (responses k) = none) →
      pollMeshyTaskStatus responses =
        (.error "Meshy task timed out after maximum polling attempts",
          meshyMaxAttempts)) ∧
    (∀ k, k < meshyMaxAttempts →
      (∀ j, j < k → meshyStepOutcome (responses j) = none) →
      (((responses k).error = none → (responses k).status = "SUCCEEDED" →
        pollMeshyTaskStatus responses = (.ok (responses k), k + 1)) ∧
       ((responses k).error = none →
        ((responses k).status = "FAILED" ∨ (responses k).status = "EXPIRED") →
        ∃ e, pollMeshyTaskStatus responses = (.error e, k + 1)))) := by
  refine ⟨pollMeshyLoop_le responses meshyMaxAttempts 0, rfl, rfl, ?_, ?_⟩
  · intro h
    exact pollMeshyLoop_timeout responses meshyMaxAttempts 0
      (fun k hk => by simpa using h k hk)
  · intro k hk hnone
    constructor
    · intro herr hsucc
      have hterm : meshyStepOutcome (responses k) = some (.ok (responses k)) := by
        simp [meshyStepOutcome, herr, hsucc]
      exact pollMeshyLoop_first responses meshyMaxAttempts 0 k _ hk
        (fun j hj => by simpa using hnone j hj)
        (by simpa using hterm)
    · intro herr hfail
      have hne : ¬ (responses k).status = "SUCCEEDED" := by
        rcases hfail with h | h <;> rw [h] <;> decide
      have hterm : meshyStepOutcome (responses k) =
          some (.error ("Meshy task " ++ (responses k).status ++ ": "
            ++ (responses k).taskErrorMessage.getD "Unknown error")) := by
        simp [meshyStepOutcome, herr, hne, hfail]
      refine ⟨_, pollMeshyLoop_first responses meshyMaxAttempts 0 k _ hk
        (fun j hj => by simpa using hnone j hj)
        (by simpa using hterm)⟩

theorem sameCore_refl (s : Model3DGenerationStatus) : sameCore s s :=
  ⟨rfl, rfl, rfl, rfl, rfl, rfl⟩

theorem sameCore_trans {a b c : Model3DGenerationStatus}
    (h1 : sameCore a b) (h2 : sameCore b c) : sameCore a c := by
  obtain ⟨x1, x2, x3, x4, x5, x6⟩ := h1
  obtain ⟨y1, y2, y3, y4, y5, y6⟩ := h2
  exact ⟨x1.trans y1, x2.trans y2, x3.trans y3, x4.trans y4,
    x5.trans y5, x6.trans y6⟩

theorem addLog_sameCore (env : AsyncEnv) (s : Model3DGenerationStatus)
    (m : String) : sameCore (addLog env s m) s :=
  ⟨rfl, rfl, rfl, rfl, rfl, rfl⟩

theorem cleanupUnlinkWrites_spec (env : AsyncEnv) :
    ∀ (rs : List String) (s : Model3DGenerationStatus),
      sameCore (cleanupUnlinkWrites env s rs).2.1 s ∧
      (∀ x ∈ (cleanupUnlinkWrites env s rs).1, sameCore x s) ∧
      (cleanupUnlinkWrites env s rs).2.2 = rs := by
  intro rs
  induction rs with
  | nil =>
    intro s
    exact ⟨sameCore_refl s, by intro x hx; simp [cleanupUnlinkWrites] at hx,
      rfl⟩
  | cons r rs ih =>
    intro s
    obtain ⟨h1, h2, h3⟩ := ih (addLog env s
      (if env.unlinkOk r then "Cleaned up: " ++ r
        else "Failed t" ++ "o cleanup " ++ r ++ ": Error"))
    refine ⟨?_, ?_, ?_⟩
    · exact sameCore_trans h1 (addLog_sameCore env s _)
    · intro x hx
      simp only [cleanupUnlinkWrites, List.mem_cons] at hx
      rcases hx with h | h
      · subst h; exact addLog_sameCore env s _
      · exact sameCore_trans (h2 x h) (addLog_sameCore env s _)
    · simp only [cleanupUnlinkWrites]
      rw [h3]

theorem cleanupPhase_spec (env : AsyncEnv)
    (o : Model3DGenerationOptionsExtended) (s : Model3DGenerationStatus)
    (refs : List String) :
    sameCore (cleanupPhase env o s refs).2.1 s ∧
    (∀ x ∈ (cleanupPhase env o s refs).1, sameCore x s) ∧
    (o.cleanupReferences.getD true = true →
      (cleanupPhase env o s refs).2.2 = refs) ∧
    (o.cleanupReferences.getD true = false →
      (cleanupPhase env o s refs).2.2 = []) := by
  cases hc : (o.cleanupReferences.getD true) && !refs.isEmpty with
  | false =>
    have hempty : o.cleanupReferences.getD true = true → refs = [] := by
      intro h; rw [h] at hc; simpa using hc
    refine ⟨?_, ?_, ?_, ?_⟩ <;> simp [cleanupPhase, hc]
    · exact sameCore_refl s
    · intro h; rw [hempty h]
  | true =>
    have hcl : o.cleanupReferences.getD true = true := by
      rcases h : o.cleanupReferences.getD true with _ | _
      · rw [h] at hc; simp at hc
      · rfl
    obtain ⟨h1, h2, h3⟩ := cleanupUnlinkWrites_spec env refs
      (addLog env s "Cleaning up reference images...")
    refine ⟨?_, ?_, ?_, ?_⟩ <;> simp only [cleanupPhase, hc, if_true]
    · exact sameCore_trans h1 (addLog_sameCore env s _)
    · intro x hx
      rcases List.mem_cons.1 hx with h | h
      · subst h; exact addLog_sameCore env s _
      · exact sameCore_trans (h2 x h) (addLog_sameCore env s _)
    · intro _; exact h3
    · intro h; rw [h] at hcl; cases hcl

theorem cleanupUnlinkWrites_chain (env : AsyncEnv)
    (R : Model3DGenerationStatus → Model3DGenerationStatus → Prop)
    (hR : ∀ a b, sameCore b a → R a b) :
    ∀ (rs : List String) (s : Model3DGenerationStatus),
      List.Chain' R (s :: (cleanupUnlinkWrites env s rs).1) := by
  intro rs
  induction rs with
  | nil => intro s; simp [cleanupUnlinkWrites]
  | cons r rs ih =>
    intro s
    simp only [cleanupUnlinkWrites]
    rw [List.chain'_cons]
    exact ⟨hR _ _ (addLog_sameCore env s _), ih _⟩

theorem cleanupPhase_chain (env : AsyncEnv)
    (o : Model3DGenerationOptionsExtended) (refs : List String)
    (R : Model3DGenerationStatus → Model3DGenerationStatus → Prop)
    (hR : ∀ a b, sameCore b a → R a b) (s : Model3DGenerationStatus) :
    List.Chain' R (s :: (cleanupPhase env o s refs).1) := by
  cases hc : (o.cleanupReferences.getD true) && !refs.isEmpty with
  | false => simp [cleanupPhase, hc]
  | true =>
    simp only [cleanupPhase, hc, if_true]
    rw [List.chain'_cons]
    exact ⟨hR _ _ (addLog_sameCore env s _),
      cleanupUnlinkWrites_chain env R hR refs _⟩

theorem finishFailure_refs_eq (env : AsyncEnv)
    (o : Model3DGenerationOptionsExtended)
    (pre : List Model3DGenerationStatus) (sD : Model3DGenerationStatus)
    (e : String) (refs : List String) :
    (finishFailure env o pre sD e refs).refs = refs := rfl

theorem finishFailure_final_sameCore (env : AsyncEnv)
    (o : Model3DGenerationOptionsExtended)
    (pre : List Model3DGenerationStatus) (sD : Model3DGenerationStatus)
    (e : String) (refs : List String) :
    sameCore (finishFailure env o pre sD e refs).final
      (finishFailure env o pre sD e refs).preCleanup := by
  simp only [finishFailure]
  exact (cleanupPhase_spec env o (failWrites env sD e).2 refs).1

theorem finishFailure_preCleanup_fields (env : AsyncEnv)
    (o : Model3DGenerationOptionsExtended)
    (pre : List Model3DGenerationStatus) (sD : Model3DGenerationStatus)
    (e : String) (refs : List String) :
    (finishFailure env o pre sD e refs).preCleanup.status = .failed ∧
    (finishFailure env o pre sD e refs).preCleanup.progress = 0 ∧
    (finishFailure env o pre sD e refs).preCleanup.error = some e ∧
    (finishFailure env o pre sD e refs).preCleanup.message =
      "Generation failed: " ++ e ∧
    (finishFailure env o pre sD e refs).preCleanup.endTime =
      some env.nowStr := by
  refine ⟨?_, ?_, ?_, ?_, ?_⟩ <;>
    simp [finishFailure, failWrites, addLog, applyPatch, Option.orElse]

theorem finishFailure_unlinks (env : AsyncEnv)
    (o : Model3DGenerationOptionsExtended)
    (pre : List Model3DGenerationStatus) (sD : Model3DGenerationStatus)
    (e : String) (refs : List String) :
    (o.cleanupReferences.getD true = true →
      (finishFailure env o pre sD e refs).unlinks = refs) ∧
    (o.cleanupReferences.getD true = false →
      (finishFailure env o pre sD e refs).unlinks = []) := by
  simp only [finishFailure]
  exact ⟨(cleanupPhase_spec env o (failWrites env sD e).2 refs).2.2.1,
    (cleanupPhase_spec env o (failWrites env sD e).2 refs).2.2.2⟩

theorem finishSuccess_refs_eq (env : AsyncEnv)
    (o : Model3DGenerationOptionsExtended)
    (pre : List Model3DGenerationStatus) (sD : Model3DGenerationStatus)
    (result1 : Model3DGenerationResult) (refs : List String) :
    (finishSuccess env o pre sD result1 refs).refs = refs := rfl

theorem finishSuccess_final_sameCore (env : AsyncEnv)
    (o : Model3DGenerationOptionsExtended)
    (pre : List Model3DGenerationStatus) (sD : Model3DGenerationStatus)
    (result1 : Model3DGenerationResult) (refs : List String) :
    sameCore (finishSuccess env o pre sD result1 refs).final
      (finishSuccess env o pre sD result1 refs).preCleanup := by
  simp only [finishSuccess]
  exact (cleanupPhase_spec env o _ refs).1

theorem finishSuccess_preCleanup_fields (env : AsyncEnv)
    (o : Model3DGenerationOptionsExtended)
    (pre : List Model3DGenerationStatus) (sD : Model3DGenerationStatus)
    (result1 : Model3DGenerationResult) (refs : List String) :
    (finishSuccess env o pre sD result1 refs).preCleanup.status =
      .completed ∧
    (finishSuccess env o pre sD result1 refs).preCleanup.progress = 100 ∧
    (finishSuccess env o pre sD result1 refs).preCleanup.result =
      some result1 ∧
    (finishSuccess env o pre sD result1 refs).preCleanup.endTime =
      some env.nowStr := by
  refine ⟨?_, ?_, ?_, ?_⟩ <;>
    simp [finishSuccess, addLog, applyPatch, Option.orElse]

theorem finishSuccess_unlinks (env : AsyncEnv)
    (o : Model3DGenerationOptionsExtended)
    (pre : List Model3DGenerationStatus) (sD : Model3DGenerationStatus)
    (result1 : Model3DGenerationResult) (refs : List String) :
    (o.cleanupReferences.getD true = true →
      (finishSuccess env o pre sD result1 refs).unlinks = refs) ∧
    (o.cleanupReferences.getD true = false →
      (finishSuccess env o pre sD result1 refs).unlinks = []) := by
  simp only [finishSuccess]
  exact ⟨(cleanupPhase_spec env o _ refs).2.2.1,
    (cleanupPhase_spec env o _ refs).2.2.2⟩

/-- A request missing both the prompt and the input images never
passes strict validation. -/
theorem validate_missing_both (o : Model3DGenerationOptionsExtended)
    (hp : promptTruthy o.prompt = false)
    (hi : (o.inputImagePaths.getD []).isEmpty = true) :
    ∃ e, validate3DModelOptions o = .error e := by
  unfold validate3DModelOptions
  repeat' split
  all_goals first
    | exact ⟨_, rfl⟩
    | (exfalso; simp_all)

/-- Every record the failure exit writes either belongs to the prefix
or carries `progress = 0`. -/
theorem finishFailure_trace_progress (env : AsyncEnv)
    (o : Model3DGenerationOptionsExtended)
    (pre : List Model3DGenerationStatus) (sD : Model3DGenerationStatus)
    (e : String) (refs : List String) :
    ∀ s ∈ (finishFailure env o pre sD e refs).trace,
      s ∈ pre ∨ s.progress = 0 := by
  intro s hs
  simp only [finishFailure] at hs
  rcases List.mem_append.1 hs with h | h
  · exact Or.inl h
  · right
    rcases List.mem_cons.1 h with h | h
    · subst h; simp [failWrites, applyPatch]
    rcases List.mem_cons.1 h with h | h
    · subst h; simp [failWrites, addLog, applyPatch]
    · have hc := (cleanupPhase_spec env o (failWrites env sD e).2 refs).2.1 s h
      rw [hc.2.1]
      simp [failWrites, addLog, applyPatch]

/-- C1 (amended): for every request missing both prompt and input
images, strict validation rejects with a `ValidationError` message;
the background task is still spawned and transiently marks the status
file `processing` (the second write), then immediately records the
`failed` terminal state carrying the validation message, with no
pipeline step beyond validation running (every write stays at
progress ≤ 5). -/
theorem asyncJob_missing_both (env : AsyncEnv)
    (o : Model3DGenerationOptionsExtended) (statusId : String)
    (hp : promptTruthy o.prompt = false)
    (hi : (o.inputImagePaths.getD []).isEmpty = true) :
    ∃ e, validate3DModelOptions o = .error e ∧
      (runAsyncJob env o statusId).final.status = .failed ∧
      (runAsyncJob env o statusId).final.error = some e ∧
      (runAsyncJob env o statusId).final.progress = 0 ∧
      ((runAsyncJob env o statusId).trace.map
        Model3DGenerationStatus.status)[1]? = some .processing ∧
      ∀ s ∈ (runAsyncJob env o statusId).trace, s.progress ≤ 5 := by
  obtain ⟨e, hval⟩ := validate_missing_both o hp hi
  refine ⟨e, hval, ?_, ?_, ?_, ?_, ?_⟩ <;>
    simp only [runAsyncJob, hval]
  · exact ((finishFailure_final_sameCore env o _ _ e []).1).trans
      (finishFailure_preCleanup_fields env o _ _ e []).1
  · exact ((finishFailure_final_sameCore env o _ _ e []).2.2.2.1).trans
      (finishFailure_preCleanup_fields env o _ _ e []).2.2.1
  · exact ((finishFailure_final_sameCore env o _ _ e []).2.1).trans
      (finishFailure_preCleanup_fields env o _ _ e []).2.1
  · simp [finishFailure, failWrites, applyPatch, addLog, initialStatus]
  · intro s hs
    rcases finishFailure_trace_progress env o _ _ e [] s hs with h | h
    · simp only [List.mem_cons, List.not_mem_nil, or_false] at h
      rcases h with h | h | h <;> subst h <;>
        simp [applyPatch, addLog, initialStatus]
    · omega

/-- Witness for C1 (amended) on a concrete request with neither prompt
nor input images, against unreachable backends. -/
theorem asyncJob_missing_both_witness :
    ∃ e, validate3DModelOptions opts0 = .error e ∧
      (runAsyncJob env0 opts0 "job-1").final.status = .failed ∧
      (runAsyncJob env0 opts0 "job-1").final.error = some e ∧
      (runAsyncJob env0 opts0 "job-1").final.progress = 0 ∧
      ((runAsyncJob env0 opts0 "job-1").trace.map
        Model3DGenerationStatus.status)[1]? = some .processing ∧
      ∀ s ∈ (runAsyncJob env0 opts0 "job-1").trace, s.progress ≤ 5 :=
  asyncJob_missing_both env0 opts0 "job-1" rfl rfl

/-- Counterexample to C1 as stated: on a request missing both prompt
and input images, the background task is spawned anyway and the
status file does reach `processing` (the second write) before the
validation failure is recorded. -/
theorem asyncJob_missing_both_counterexample :
    promptTruthy opts0.prompt = false ∧
    (opts0.inputImagePaths.getD []).isEmpty = true ∧
    validate3DModelOptions opts0 =
      .error "Either input images or a prompt is required for 3D model generation" ∧
    ((runAsyncJob env0 opts0 "job-1").trace.map
      Model3DGenerationStatus.status)[1]? = some .processing :=
  ⟨rfl, rfl, rfl, rfl⟩

/-- The failure exit's final record: `error` and `message` carry the
failure description, progress is reset to 0, `endTime` is set. -/
theorem finishFailure_failed_record (env : AsyncEnv)
    (o : Model3DGenerationOptionsExtended)
    (pre : List Model3DGenerationStatus) (sD : Model3DGenerationStatus)
    (e : String) (refs : List String) :
    ∃ e2, (finishFailure env o pre sD e refs).final.error = some e2 ∧
      (finishFailure env o pre sD e refs).final.message =
        "Generation failed: " ++ e2 ∧
      (finishFailure env o pre sD e refs).final.progress = 0 ∧
      (finishFailure env o pre sD e refs).final.endTime =
        some env.nowStr := by
  obtain ⟨c1, c2, c3, c4, c5, c6⟩ :=
    finishFailure_final_sameCore env o pre sD e refs
  obtain ⟨f1, f2, f3, f4, f5⟩ :=
    finishFailure_preCleanup_fields env o pre sD e refs
  exact ⟨e, c4.trans f3, c3.trans f4, c2.trans f2, c5.trans f5⟩

/-- After dispatch, a `failed` final status only arises from the
failure exit, whose final record carries the failure description. -/
theorem runAsyncJobFinish_failed_record (env : AsyncEnv)
    (o : Model3DGenerationOptionsExtended)
    (pre : List Model3DGenerationStatus) (sD : Model3DGenerationStatus)
    (refs : List String) (dres : Except String Model3DGenerationResult)
    (h : (runAsyncJobFinish env o pre sD refs dres).final.status =
      .failed) :
    ∃ e, (runAsyncJobFinish env o pre sD refs dres).final.error =
        some e ∧
      (runAsyncJobFinish env o pre sD refs dres).final.message =
        "Generation failed: " ++ e ∧
      (runAsyncJobFinish env o pre sD refs dres).final.progress = 0 ∧
      (runAsyncJobFinish env o pre sD refs dres).final.endTime =
        some env.nowStr := by
  cases dres with
  | error e =>
    simp only [runAsyncJobFinish]
    exact finishFailure_failed_record env o pre sD e refs
  | ok r =>
    exfalso
    simp only [runAsyncJobFinish] at h
    rw [((finishSuccess_final_sameCore env o pre sD _ refs).1).trans
      (finishSuccess_preCleanup_fields env o pre sD _ refs).1] at h
    cases h

/-- C3: every async job whose final status is `failed` ends with a
record carrying `progress = 0`, `error` set to the failure
description, `message` set to that description prefixed with
"Generation failed: ", and `endTime` set. -/
theorem asyncJob_failed_final (env : AsyncEnv)
    (o : Model3DGenerationOptionsExtended) (statusId : String)
    (hfail : (runAsyncJob env o statusId).final.status = .failed) :
    ∃ e, (runAsyncJob env o statusId).final.error = some e ∧
      (runAsyncJob env o statusId).final.message =
        "Generation failed: " ++ e ∧
      (runAsyncJob env o statusId).final.progress = 0 ∧
      (runAsyncJob env o statusId).final.endTime = some env.nowStr := by
  simp only [runAsyncJob] at hfail ⊢
  rcases hval : validate3DModelOptions o with e | u <;>
    simp only [hval] at hfail ⊢
  · exact finishFailure_failed_record env o _ _ e []
  · exact runAsyncJobFinish_failed_record env o _ _ _ _ hfail

/-- Witness for C3: a job whose backend dispatch throws ends `failed`
with the failure description recorded. -/
theorem asyncJob_failed_final_witness :
    (runAsyncJob env0 optsB "job-3").final.status = .failed ∧
    ∃ e, (runAsyncJob env0 optsB "job-3").final.error = some e ∧
      (runAsyncJob env0 optsB "job-3").final.message =
        "Generation failed: " ++ e ∧
      (runAsyncJob env0 optsB "job-3").final.progress = 0 ∧
      (runAsyncJob env0 optsB "job-3").final.endTime =
        some env0.nowStr :=
  ⟨rfl, asyncJob_failed_final env0 optsB "job-3" rfl⟩

theorem sameCore_stepRel (a b : Model3DGenerationStatus)
    (h : sameCore b a) : progressStep a b ∧ noRegress a b := by
  obtain ⟨h1, h2, _⟩ := h
  refine ⟨Or.inl (le_of_eq h2.symm), ?_, ?_⟩ <;>
    (intro hc; rw [h1, hc])

theorem finishFailure_chain (env : AsyncEnv)
    (o : Model3DGenerationOptionsExtended)
    (pre : List Model3DGenerationStatus) (sD : Model3DGenerationStatus)
    (e : String) (refs : List String)
    (hpre : List.Chain' (fun a b => progressStep a b ∧ noRegress a b) pre)
    (hlast : pre.getLast? = some sD)
    (hsD : sD.status = .processing) :
    List.Chain' (fun a b => progressStep a b ∧ noRegress a b)
      (finishFailure env o pre sD e refs).trace := by
  simp only [finishFailure]
  rw [List.chain'_append]
  refine ⟨hpre, ?_, ?_⟩
  · rw [List.chain'_cons]
    exact ⟨sameCore_stepRel _ _ (addLog_sameCore env _ _),
      cleanupPhase_chain env o refs _ sameCore_stepRel _⟩
  · intro x hx y hy
    rw [hlast] at hx
    simp only [Option.mem_def, Option.some.injEq] at hx
    simp only [List.head?_cons, Option.mem_def, Option.some.injEq] at hy
    subst hx; subst hy
    refine ⟨Or.inr ⟨?_, ?_⟩, ?_, ?_⟩ <;>
      simp [failWrites, applyPatch, hsD]

theorem finishSuccess_chain (env : AsyncEnv)
    (o : Model3DGenerationOptionsExtended)
    (pre : List Model3DGenerationStatus) (sD : Model3DGenerationStatus)
    (result1 : Model3DGenerationResult) (refs : List String)
    (hpre : List.Chain' (fun a b => progressStep a b ∧ noRegress a b) pre)
    (hlast : pre.getLast? = some sD)
    (hsD : sD.status = .processing) (hsp : sD.progress ≤ 90) :
    List.Chain' (fun a b => progressStep a b ∧ noRegress a b)
      (finishSuccess env o pre sD result1 refs).trace := by
  simp only [finishSuccess]
  rw [List.chain'_append]
  refine ⟨hpre, ?_, ?_⟩
  · rw [List.chain'_cons]
    constructor
    · refine ⟨Or.inl ?_, ?_, ?_⟩ <;>
        simp [applyPatch, hsD]
    rw [List.chain'_cons]
    exact ⟨sameCore_stepRel _ _ (addLog_sameCore env _ _),
      cleanupPhase_chain env o refs _ sameCore_stepRel _⟩
  · intro x hx y hy
    rw [hlast] at hx
    simp only [Option.mem_def, Option.some.injEq] at hx
    simp only [List.head?_cons, Option.mem_def, Option.some.injEq] at hy
    subst hx; subst hy
    refine ⟨Or.inl ?_, ?_, ?_⟩ <;>
      simp [applyPatch, hsD, hsp]

theorem runAsyncJobFinish_chain (env : AsyncEnv)
    (o : Model3DGenerationOptionsExtended)
    (pre : List Model3DGenerationStatus) (sD : Model3DGenerationStatus)
    (refs : List String) (dres : Except String Model3DGenerationResult)
    (hpre : List.Chain' (fun a b => progressStep a b ∧ noRegress a b) pre)
    (hlast : pre.getLast? = some sD)
    (hsD : sD.status = .processing) (hsp : sD.progress ≤ 90) :
    List.Chain' (fun a b => progressStep a b ∧ noRegress a b)
      (runAsyncJobFinish env o pre sD refs dres).trace := by
  cases dres with
  | error e =>
    simp only [runAsyncJobFinish]
    exact finishFailure_chain env o pre sD e refs hpre hlast hsD
  | ok r =>
    simp only [runAsyncJobFinish]
    exact finishSuccess_chain env o pre sD _ refs hpre hlast hsD hsp

set_option maxHeartbeats 2000000 in
/-- C2 (amended): across one job's status-file writes, `progress`
never decreases except at the failure write, which resets it to 0 with
`status = failed`; and `status` never regresses from `completed` or
`failed`. -/
theorem asyncJob_status_monotone (env : AsyncEnv)
    (o : Model3DGenerationOptionsExtended) (statusId : String) :
    List.Chain' (fun a b => progressStep a b ∧ noRegress a b)
      (runAsyncJob env o statusId).trace := by
  simp only [runAsyncJob]
  rcases hval : validate3DModelOptions o with e | u <;> simp only [hval]
  · apply finishFailure_chain
    · simp only [List.chain'_cons, List.chain'_singleton]
      repeat' apply And.intro
      all_goals first
        | trivial
        | exact Or.inl (by simp [applyPatch, addLog, initialStatus])
        | (intro h; simp [applyPatch, addLog, initialStatus] at h)
    · rfl
    · simp [applyPatch, addLog, initialStatus]
  · rcases hrc : (o.inputImagePaths.getD []).isEmpty
        && promptTruthy o.prompt
        && o.autoGenerateReferences.getD true with _ | _ <;>
      rcases hm : o.model with _ | _ | _ | _ | _ <;>
      simp only [refPhase, dispatchPhase, hm, hrc, Bool.false_eq_true,
        if_false, if_true, List.nil_append, List.cons_append] <;>
      apply runAsyncJobFinish_chain <;>
      first
        | rfl
        | (simp [applyPatch, addLog, initialStatus]; done)
        | (simp only [List.chain'_cons, List.chain'_singleton]
           repeat' apply And.intro
           all_goals first
             | trivial
             | exact Or.inl (by simp [applyPatch, addLog, initialStatus])
             | (intro h; simp [applyPatch, addLog, initialStatus] at h))

/-- Counterexample to C2 as stated: a job whose dispatch fails writes
progress 40 and then progress 0 in successive writes, so progress is
not monotonically non-decreasing over the job's lifecycle. -/
theorem asyncJob_progress_counterexample :
    ((runAsyncJob env0 optsB "job-2").trace.map
      (fun s => s.progress))[6]? = some 40 ∧
    ((runAsyncJob env0 optsB "job-2").trace.map
      (fun s => s.progress))[7]? = some 0 ∧
    ¬ List.Chain' (fun a b => a.progress ≤ b.progress)
        (runAsyncJob env0 optsB "job-2").trace := by
  refine ⟨rfl, rfl, ?_⟩
  intro h
  have h6 := List.chain'_iff_get.1 h 6 (by decide)
  exact absurd h6 (by decide)

/-- After dispatch, on either exit: cleanup attempts to delete exactly
the generated references when enabled (and nothing otherwise), only
appends log lines (the core of the record is unchanged), and the
record it starts from is terminal. -/
theorem runAsyncJobFinish_cleanup_spec (env : AsyncEnv)
    (o : Model3DGenerationOptionsExtended)
    (pre : List Model3DGenerationStatus) (sD : Model3DGenerationStatus)
    (refs : List String)
    (dres : Except String Model3DGenerationResult) :
    (o.cleanupReferences.getD true = true →
      (runAsyncJobFinish env o pre sD refs dres).unlinks =
        (runAsyncJobFinish env o pre sD refs dres).refs) ∧
    (o.cleanupReferences.getD true = false →
      (runAsyncJobFinish env o pre sD refs dres).unlinks = []) ∧
    sameCore (runAsyncJobFinish env o pre sD refs dres).final
      (runAsyncJobFinish env o pre sD refs dres).preCleanup ∧
    ((runAsyncJobFinish env o pre sD refs dres).preCleanup.status =
        .completed ∨
      (runAsyncJobFinish env o pre sD refs dres).preCleanup.status =
        .failed) := by
  cases dres with
  | error e =>
    simp only [runAsyncJobFinish]
    refine ⟨?_, (finishFailure_unlinks env o pre sD e refs).2,
      finishFailure_final_sameCore env o pre sD e refs,
      Or.inr (finishFailure_preCleanup_fields env o pre sD e refs).1⟩
    intro h
    rw [finishFailure_refs_eq]
    exact (finishFailure_unlinks env o pre sD e refs).1 h
  | ok r =>
    simp only [runAsyncJobFinish]
    refine ⟨?_, (finishSuccess_unlinks env o pre sD _ refs).2,
      finishSuccess_final_sameCore env o pre sD _ refs,
      Or.inl (finishSuccess_preCleanup_fields env o pre sD _ refs).1⟩
    intro h
    rw [finishSuccess_refs_eq]
    exact (finishSuccess_unlinks env o pre sD _ refs).1 h

/-- C4: on both the success and the failure exit path, when
`cleanupReferences` holds the cleanup step attempts to delete exactly
the auto-generated reference images (independently of whether any
individual deletion succeeds), never touches anything when it is off,
and never changes the terminal record: the final record agrees with
the pre-cleanup record on everything but appended logs, and that
record is `completed` or `failed`. -/
theorem asyncJob_cleanup_spec (env : AsyncEnv)
    (o : Model3DGenerationOptionsExtended) (statusId : String) :
    (o.cleanupReferences.getD true = true →
      (runAsyncJob env o statusId).unlinks =
        (runAsyncJob env o statusId).refs) ∧
    (o.cleanupReferences.getD true = false →
      (runAsyncJob env o statusId).unlinks = []) ∧
    sameCore (runAsyncJob env o statusId).final
      (runAsyncJob env o statusId).preCleanup ∧
    ((runAsyncJob env o statusId).preCleanup.status = .completed ∨
      (runAsyncJob env o statusId).preCleanup.status = .failed) := by
  simp only [runAsyncJob]
  rcases hval : validate3DModelOptions o with e | u <;> simp only [hval]
  · refine ⟨?_, (finishFailure_unlinks env o _ _ e []).2,
      finishFailure_final_sameCore env o _ _ e [],
      Or.inr (finishFailure_preCleanup_fields env o _ _ e []).1⟩
    intro h
    rw [finishFailure_refs_eq]
    exact (finishFailure_unlinks env o _ _ e []).1 h
  · exact runAsyncJobFinish_cleanup_spec env o _ _ _ _
